import Mathlib

/-!
Verification of the Guess-It number-guessing web game (Flask app under
`src/app/`, with the legacy monolith `src/Guess_It.py`).  The definitions
below are a shallow embedding of the session-level behaviour of the routes
in `src/app/routes.py`: the Flask `session` dict becomes an explicit
`Session` structure (a key that may be absent is an `Option` field; numeric
and boolean keys that the code always reads with a `.get(key, default)`
are plain fields holding the default when never written), `time.time()`
becomes a `Nat` parameter, the Supabase leaderboard table becomes an
optional list of rows (`none` = client unavailable), and the Fernet cipher
becomes a symbolic authenticated-encryption codec.
-/

namespace GuessIt

/-! ## Difficulty and title configuration (src/app/config.py) -/

structure DifficultySetting where
  max_number : Nat
  max_attempts : Nat
  points : Nat
deriving Repr, DecidableEq

/-- `GameConfig.DIFFICULTY_SETTINGS` from src/app/config.py. -/
def DIFFICULTY_SETTINGS : List (String × DifficultySetting) :=
  [ ("easy",       ⟨10,      3,  3⟩),
    ("medium",     ⟨100,     8,  10⟩),
    ("hard",       ⟨1000,    15, 20⟩),
    ("impossible", ⟨100000,  25, 45⟩),
    ("million",    ⟨1000000, 50, 150⟩) ]

/-- Dictionary lookup `GameConfig.DIFFICULTY_SETTINGS[d]` (`none` models a KeyError). -/
def lookupDifficulty (d : String) : Option DifficultySetting :=
  (DIFFICULTY_SETTINGS.find? (fun p => p.1 == d)).map (·.2)

/-- `GameConfig.TITLES` from src/app/config.py (ascending thresholds). -/
def TITLES : List (String × Nat) :=
  [ ("Newbie", 100), ("Rookie", 500), ("Pro", 2500),
    ("Legend", 5000), ("Champion", 10000) ]

/-- `get_player_title` from src/app/routes.py lines 87-90: iterate the
reversed title table and return the first (hence highest) threshold the
points meet, else `None`. -/
def get_player_title (points : Nat) : Option String :=
  (TITLES.reverse.find? (fun t => points ≥ t.2)).map (·.1)

/-! ## Secret codec

Modelled from the spec: the repository delegates sealing/unsealing to the
external `cryptography.fernet.Fernet` suite (`src/app/__init__.py` lines
79-86 provision the key; routes call `encrypt`/`decrypt`).  The library
itself is not part of src/, so the codec is modelled from the spec's
contract: `seal(plaintext_integer) -> token`; `unseal(token)` returns the
integer and fails with `InvalidToken` when the token is malformed, forged,
or encrypted under a different key.  A token is either a ciphertext
produced under some key or garbage bytes; unsealing succeeds exactly on a
ciphertext produced under the unsealing key. -/

inductive Token where
  /-- Ciphertext of `plaintext` produced under `key`. -/
  | ciph (key : Nat) (plaintext : Nat) : Token
  /-- Malformed bytes that no key ever produced. -/
  | garbage (id : Nat) : Token
deriving Repr, DecidableEq

/-- Modelled from the spec: `seal(plaintext_integer) -> token`
(`cipher_suite.encrypt` in the source, external library). -/
def sealToken (key : Nat) (n : Nat) : Token := Token.ciph key n

/-- Modelled from the spec: `unseal(token)`; `none` is the `InvalidToken`
failure (`cipher_suite.decrypt` in the source, external library). -/
def unsealToken (key : Nat) : Token → Option Nat
  | Token.ciph k n => if k = key then some n else none
  | Token.garbage _ => none

/-! ## Session state (the Flask `session` dict as used by src/app/routes.py) -/

structure Session where
  /-- `session['username']`, set by login; `none` when never logged in. -/
  username : Option String := none
  points : Nat := 0
  total_games : Nat := 0
  correct_guesses : Nat := 0
  difficulty : String := "easy"
  attempts : Nat := 0
  game_ready : Bool := false
  guess_history : List Int := []
  is_the_one : Bool := false
  offline_mode : Bool := false
  /-- `session['target_token']`; popped (absent) outside a game. -/
  target_token : Option Token := none
  /-- `session['game_start_time']`; popped (absent) outside a game. -/
  game_start_time : Option Nat := none
deriving Repr, DecidableEq

/-! ## Caches and request environment -/

/-- `CACHE_TIMEOUT_SECONDS` from src/app/routes.py line 24. -/
def CACHE_TIMEOUT_SECONDS : Nat := 5

/-- `TOP_PLAYER_CACHE` from src/app/routes.py line 28. -/
structure TopPlayerCache where
  username : Option String := none
  points : Nat := 0
  last_updated : Nat := 0
deriving Repr, DecidableEq

/-- One row of the persisted `leaderboard` table. -/
structure DbRow where
  username : String
  points : Nat
  total_games : Nat := 0
  correct_guesses : Nat := 0
deriving Repr, DecidableEq

/-- A leaderboard entry as serialised by `/api/leaderboard`. -/
structure LBEntry where
  username : String
  points : Nat
  title : Option String
deriving Repr, DecidableEq

/-- `LEADERBOARD_CACHE` from src/app/routes.py line 29. -/
structure LeaderboardCache where
  data : List LBEntry := []
  last_updated : Nat := 0
deriving Repr, DecidableEq

/-- Per-request ambient state: the process cipher key, the Supabase client
(`none` when `get_database_client()` returns `None`) holding the
`leaderboard` table rows, the wall clock, and whether
`hasattr(current_app, 'task_queue')`. -/
structure Env where
  key : Nat
  db : Option (List DbRow)
  now : Nat
  hasQueue : Bool := true
deriving Repr, DecidableEq

/-- Python truthiness of an optional string (`not cached_top_user`):
`None` and the empty string are falsy. -/
def optStrFalsy : Option String → Bool
  | none => true
  | some s => s == ""

/-- The `.order('points', desc=True)` part of the leaderboard queries:
sort rows by points, descending (insertion sort, stable on ties). -/
def insertDesc (x : DbRow) : List DbRow → List DbRow
  | [] => [x]
  | y :: ys => if x.points > y.points then x :: y :: ys else y :: insertDesc x ys

def sortByPointsDesc : List DbRow → List DbRow
  | [] => []
  | x :: xs => insertDesc x (sortByPointsDesc xs)

/-! ## Helper functions of src/app/routes.py -/

/-- `save_score_async` from src/app/routes.py lines 66-85.  Returns the
updated session together with whether a background task was enqueued (the
enqueue happens only when the app has a `task_queue`; the session update is
unconditional and synchronous).  The username argument is only forwarded to
the background task. -/
def save_score_async (hasQueue : Bool) (s : Session) (_username : String)
    (points_to_add : Nat) (won : Bool) : Session × Bool :=
  ({ s with
      points := s.points + points_to_add,
      total_games := s.total_games + 1,
      correct_guesses := s.correct_guesses + (if won then 1 else 0) },
   hasQueue)

/-- `check_if_user_is_the_one` from src/app/routes.py lines 93-126.
Returns the boolean answer and the (possibly refreshed) top-player cache.
The Supabase query `select('username, points').order('points',
desc=True).limit(1)` is the head of the rows sorted by points descending. -/
def check_if_user_is_the_one (env : Env) (cache : TopPlayerCache)
    (username : String) (current_user_points : Nat) : Bool × TopPlayerCache :=
  let cached_top_user := cache.username
  let cached_top_points := cache.points
  let refreshed :=
    if optStrFalsy cached_top_user ∨ env.now - cache.last_updated > CACHE_TIMEOUT_SECONDS then
      match env.db with
      | some rows =>
        match (sortByPointsDesc rows).head? with
        | some top =>
          (some top.username, top.points,
           { username := some top.username, points := top.points,
             last_updated := env.now })
        | none => (cached_top_user, cached_top_points, cache)
      | none => (cached_top_user, cached_top_points, cache)
    else (cached_top_user, cached_top_points, cache)
  if current_user_points > refreshed.2.1 then (true, refreshed.2.2)
  else (refreshed.1 == some username, refreshed.2.2)

/-- `initialize_session_defaults` from src/app/routes.py lines 128-135:
`session.setdefault` for each default.  In this embedding every field is
already present (an absent numeric/boolean key is represented by its
default value), so filling defaults is the identity. -/
def fill_session_defaults (s : Session) : Session := s

/-- `forfeit_game_if_active` from src/app/routes.py lines 137-141. -/
def forfeit_game_if_active (env : Env) (s : Session) : Session :=
  if s.game_ready ∧ s.target_token.isSome then
    match s.username with
    | some u => (save_score_async env.hasQueue s u 0 false).1
    | none => s
  else s

/-- `clear_game_state` from src/app/routes.py lines 143-147. -/
def clear_game_state (s : Session) : Session :=
  { s with target_token := none, game_start_time := none,
           game_ready := false, attempts := 0 }

/-! ## Route endpoints (src/app/routes.py) -/

/-- The JSON body returned by `POST /api/guess` (`process_guess`),
abstracted to its discriminating fields.  `warning` is listed because the
API surface of the spec (and the legacy `src/Guess_It.py` route) includes
a `status: warning` body; `routes.py` itself never constructs it. -/
inductive GuessResponse where
  /-- 400 `State Error` / "Game not started". -/
  | stateError
  /-- 400 `status: error` / "Invalid number." (pydantic ValidationError). -/
  | invalidNumber
  /-- 400 `Security Error` / "Invalid Session Token." (InvalidToken). -/
  | securityError
  /-- 500 `Server Error` (any other decryption exception). -/
  | serverError
  /-- `status: warning` (out-of-range guess in the legacy monolith). -/
  | warning
  /-- `status: win` with the revealed number, `new_points`, `new_title`. -/
  | win (correct : Nat) (new_points : Nat) (new_title : Option String)
  /-- `status: lose` with the revealed number. -/
  | lose (correct : Nat)
  /-- `status: continue` with hint, `attempts_left` and `history`. -/
  | cont (hint : String) (attempts_left : Nat) (history : List Int)
deriving Repr, DecidableEq

/-- The `status` JSON field of a guess response (`none` for bodies that
carry only an `error` field). -/
def GuessResponse.statusField : GuessResponse → Option String
  | .stateError => none
  | .invalidNumber => some "error"
  | .securityError => none
  | .serverError => none
  | .warning => some "warning"
  | .win .. => some "win"
  | .lose _ => some "lose"
  | .cont .. => some "continue"

/-- The HTTP status code of a guess response. -/
def GuessResponse.httpCode : GuessResponse → Nat
  | .stateError => 400
  | .invalidNumber => 400
  | .securityError => 400
  | .serverError => 500
  | _ => 200

/-- `GuessRequest` from src/app/schemas.py lines 18-19: the body must hold
an integer `guess` with `ge=1`.  `none` in = missing or non-integer field;
`none` out = pydantic ValidationError. -/
def validateGuessRequest (payload : Option Int) : Option Int :=
  match payload with
  | some g => if g ≥ 1 then some g else none
  | none => none

/-- `process_guess` from src/app/routes.py lines 275-342 (`POST
/api/guess`).  `payload` is the request's `guess` field (`none` when
missing or not an integer).  `session['username']` is read with a default
of `""`; for any session that can reach the body it was set by login.
Returns the response body, the session after the request, and the
top-player cache after the request. -/
def process_guess (env : Env) (cache : TopPlayerCache) (s : Session)
    (payload : Option Int) : GuessResponse × Session × TopPlayerCache :=
  match s.game_ready, s.target_token with
  | true, some token =>
    (match validateGuessRequest payload with
     | none => (.invalidNumber, s, cache)
     | some guess_value =>
       match unsealToken env.key token with
       | none => (.securityError, s, cache)
       | some correct_number =>
         match lookupDifficulty s.difficulty with
         | none => (.serverError, s, cache)
         | some settings =>
           let s := { s with guess_history := s.guess_history ++ [guess_value] }
           let s := { s with attempts := s.attempts + 1 }
           if guess_value = (correct_number : Int) then
             let _time_taken := env.now - (s.game_start_time.getD 0)
             let s := (save_score_async env.hasQueue s (s.username.getD "")
                         settings.points true).1
             let checked := check_if_user_is_the_one env cache
                              (s.username.getD "") s.points
             let new_title := if checked.1 then some "THE ONE"
                              else get_player_title s.points
             let s := { s with is_the_one := new_title == some "THE ONE" }
             let s := clear_game_state s
             (.win correct_number s.points new_title, s, checked.2)
           else if settings.max_attempts ≤ s.attempts then
             let s := (save_score_async env.hasQueue s (s.username.getD "")
                         0 false).1
             let s := clear_game_state s
             (.lose correct_number, s, cache)
           else
             let hint := if guess_value < (correct_number : Int) then "Higher"
                         else "Lower"
             (.cont hint (settings.max_attempts - s.attempts) s.guess_history,
              s, cache))
  | _, _ => (.stateError, s, cache)

/-- `start_game` from src/app/routes.py lines 256-273 (`POST /api/start`).
`target_number` stands for the draw `random.randint(1,
settings['max_number'])`.  Returns the session after the request and the
`max_number` echoed in the response, or `none` when the difficulty lookup
raises a KeyError (no reachable session stores an invalid difficulty). -/
def start_game (env : Env) (s : Session) (target_number : Nat) :
    Option (Session × Nat) :=
  let s := forfeit_game_if_active env s
  let s := clear_game_state s
  match lookupDifficulty s.difficulty with
  | none => none
  | some settings =>
    let encrypted_token := sealToken env.key target_number
    let s := { s with target_token := some encrypted_token,
                      attempts := 0, game_ready := true,
                      game_start_time := some env.now, guess_history := [] }
    some (s, settings.max_number)

/-- The JSON body returned by `POST /api/difficulty`. -/
inductive DifficultyResponse where
  | invalid
  | ok (max_number : Nat)
deriving Repr, DecidableEq

/-- `set_difficulty_level` from src/app/routes.py lines 238-254 (`POST
/api/difficulty`).  `new_difficulty` is `request_data.get('difficulty',
'easy')`. -/
def set_difficulty_level (env : Env) (s : Session) (new_difficulty : String) :
    DifficultyResponse × Session :=
  let s := forfeit_game_if_active env s
  let s := clear_game_state s
  match lookupDifficulty new_difficulty with
  | none => (.invalid, s)
  | some settings =>
    (.ok settings.max_number, { s with difficulty := new_difficulty })

/-- `LoginRequest` validation from src/app/schemas.py lines 5-14:
1-12 characters, ASCII letters and digits only. -/
def valid_username (u : String) : Bool :=
  1 ≤ u.length && u.length ≤ 12 && u.all (fun c => c.isAlpha || c.isDigit)

/-- The JSON body returned by `POST /api/login`. -/
inductive LoginResponse where
  | invalid
  | ok (points : Nat) (title : Option String) (offline : Bool)
deriving Repr, DecidableEq

/-- `handle_login` from src/app/routes.py lines 185-236 (`POST
/api/login`).  `payload` is the `username` field (`none` = absent).  The
external `login_user` call touches only flask-login's own session keys and
is omitted; the modelled store never raises, so the `except InvalidToken`
branch (lines 221-223) is unreachable here. -/
def handle_login (env : Env) (cache : TopPlayerCache) (s : Session)
    (payload : Option String) : LoginResponse × Session × TopPlayerCache :=
  match payload with
  | none => (.invalid, s, cache)
  | some username =>
    if valid_username username then
      let s := { s with username := some username, offline_mode := false }
      match env.db with
      | some rows =>
        (match rows.find? (fun r => r.username == username) with
         | some user_data =>
           let s := { s with points := user_data.points,
                             total_games := user_data.total_games,
                             correct_guesses := user_data.correct_guesses }
           let checked := check_if_user_is_the_one env cache username s.points
           let current_title := if checked.1 then some "THE ONE"
                                else get_player_title s.points
           let s := { s with is_the_one := current_title == some "THE ONE" }
           (.ok s.points current_title s.offline_mode, s, checked.2)
         | none =>
           let s := { s with points := 0 }
           (.ok s.points none s.offline_mode, s, cache))
      | none =>
        let s := { s with offline_mode := true }
        let s := { s with points := 0 }
        (.ok s.points none s.offline_mode, s, cache)
    else (.invalid, s, cache)

/-- `index_page` from src/app/routes.py lines 167-183 (`GET /`).  Returns
the `user_title` rendered into the page, the session after the request,
and the top-player cache after the request. -/
def index_page (env : Env) (cache : TopPlayerCache) (s : Session) :
    Option String × Session × TopPlayerCache :=
  let s := if s.game_ready then clear_game_state (forfeit_game_if_active env s)
           else s
  let s := fill_session_defaults s
  if optStrFalsy s.username then (none, s, cache)
  else
    let user_points := s.points
    let checked := check_if_user_is_the_one env cache (s.username.getD "")
                     user_points
    let user_title := if checked.1 then some "THE ONE"
                      else get_player_title user_points
    let s := if checked.1 then { s with is_the_one := true } else s
    (user_title, s, checked.2)

/-- `handle_logout` from src/app/routes.py lines 391-396 (`GET /logout`):
forfeit any active game, then `session.clear()` leaves a fresh session. -/
def handle_logout (env : Env) (s : Session) : Session :=
  let _forfeited := forfeit_game_if_active env s
  {}

/-- The JSON body returned by `GET /api/leaderboard`. -/
inductive LeaderboardResponse where
  | ok (data : List LBEntry)
  | dbDown
deriving Repr, DecidableEq

/-- `get_leaderboard_data` from src/app/routes.py lines 344-376 (`GET
/api/leaderboard`).  The store query `order('points',
desc=True).limit(100)` is the sorted row list truncated to 100; the
modelled store never raises, so the `except InvalidToken` branch (lines
375-376) is unreachable here. -/
def get_leaderboard_data (env : Env) (lb : LeaderboardCache)
    (top : TopPlayerCache) :
    LeaderboardResponse × LeaderboardCache × TopPlayerCache :=
  if lb.data ≠ [] ∧ env.now - lb.last_updated < CACHE_TIMEOUT_SECONDS then
    (.ok lb.data, lb, top)
  else
    match env.db with
    | none =>
      ((if lb.data ≠ [] then .ok lb.data else .dbDown), lb, top)
    | some rows =>
      let sorted := (sortByPointsDesc rows).take 100
      let leaderboard_data := sorted.enum.map (fun p =>
        { username := p.2.username, points := p.2.points,
          title := if p.1 = 0 then some "THE ONE"
                   else get_player_title p.2.points : LBEntry })
      let top' := match sorted.head? with
        | some r => { username := some r.username, points := r.points,
                      last_updated := env.now }
        | none => top
      (.ok leaderboard_data,
       { data := leaderboard_data, last_updated := env.now }, top')

/-! ## Derived definitions used to state the claims -/

/-- The rank of a title, `0` for no title, up to `5` for the top tier
(the order of `GameConfig.TITLES`). -/
def titleRank : Option String → Nat
  | some "Newbie" => 1
  | some "Rookie" => 2
  | some "Pro" => 3
  | some "Legend" => 4
  | some "Champion" => 5
  | _ => 0

/-- The session-level game-state invariant: the active-game record (the
`target_token`) is in the session exactly when the state machine is in the
playing state (`game_ready`). -/
def game_inv (s : Session) : Prop := s.game_ready = s.target_token.isSome

instance (s : Session) : Decidable (game_inv s) := by
  unfold game_inv; infer_instance

/-! ## Concrete inputs used by the counterexamples -/

/-- A request environment whose cipher key is 7 and whose store is down. -/
def cexEnv : Env := { key := 7, db := none, now := 100 }

/-- A session in the playing state on easy difficulty whose sealed secret
is 5 (a value `start_game` can draw on easy). -/
def cexPlaying : Session :=
  { username := some "Al"
    game_ready := true
    target_token := some (sealToken 7 5)
    game_start_time := some 90
    difficulty := "easy" }

/-- The same playing session holding a malformed target token. -/
def cexBadToken : Session :=
  { cexPlaying with target_token := some (Token.garbage 0) }

/-- A leaderboard cache holding a non-empty snapshot written at time 0. -/
def cexLbCache : LeaderboardCache :=
  { data := [⟨"A", 5, none⟩], last_updated := 0 }

/-- First leaderboard call: at time 4 with the store holding A=5. -/
def cexLbEnv1 : Env := { key := 0, db := some [⟨"A", 5, 0, 0⟩], now := 4 }

/-- Second leaderboard call: at time 6 (2 seconds after the first, inside
the 5-second TTL) with the store now holding B=7. -/
def cexLbEnv2 : Env := { key := 0, db := some [⟨"B", 7, 0, 0⟩], now := 6 }

/-! ## Theorems -/

/-- Claim C5 (confirmed, spec-modelled codec): for every plaintext integer
`n`, unsealing the token produced by sealing `n` under the process key
returns `n`; and unsealing fails with `InvalidToken` (`none`) on a token
sealed under a different key (forged relative to this process) and on a
malformed token. -/
theorem C5_seal_unseal_roundtrip (key otherKey n g : Nat)
    (hne : otherKey ≠ key) :
    unsealToken key (sealToken key n) = some n ∧
    unsealToken key (sealToken otherKey n) = none ∧
    unsealToken key (Token.garbage g) = none := by
  refine ⟨by simp [sealToken, unsealToken], ?_, by simp [unsealToken]⟩
  simp [sealToken, unsealToken, hne]

/-- Witness for C5 at key 7, foreign key 8, plaintext 5. -/
theorem C5_seal_unseal_roundtrip_witness :
    (8 : Nat) ≠ 7 ∧
    (unsealToken 7 (sealToken 7 5) = some 5 ∧
     unsealToken 7 (sealToken 8 5) = none ∧
     unsealToken 7 (Token.garbage 0) = none) :=
  ⟨by decide, C5_seal_unseal_roundtrip 7 8 5 0 (by decide)⟩

/-- Claim C8 (confirmed): the synchronous part of score recording updates
exactly the session's local mirror counters — `points` grows by the delta,
`total_games` by one, `correct_guesses` by one exactly on a win — all
other session fields unchanged, and the resulting session is the same
whether or not the background queue (the path to the backing store) is
available. -/
theorem C8_save_score_async_local_mirror (hasQueue : Bool) (s : Session)
    (username : String) (points_to_add : Nat) (won : Bool) :
    (save_score_async hasQueue s username points_to_add won).1 =
      { s with points := s.points + points_to_add,
               total_games := s.total_games + 1,
               correct_guesses :=
                 s.correct_guesses + (if won then 1 else 0) } ∧
    (save_score_async hasQueue s username points_to_add won).1 =
      (save_score_async (!hasQueue) s username points_to_add won).1 := by
  constructor <;> rfl

/-- Claim C10 (confirmed): with an unpopulated top-player cache (username
`None`, points 0) and an unavailable database client,
`check_if_user_is_the_one(username, p)` answers `True` for every username
whenever `p > 0` and `False` when `p = 0`. -/
theorem C10_the_one_offline_unpopulated (env : Env) (cache : TopPlayerCache)
    (username : String) (p : Nat)
    (hdb : env.db = none) (hu : cache.username = none)
    (hp : cache.points = 0) :
    (0 < p → (check_if_user_is_the_one env cache username p).1 = true) ∧
    (p = 0 → (check_if_user_is_the_one env cache username p).1 = false) := by
  constructor <;> intro h <;>
    simp [check_if_user_is_the_one, hdb, hu, hp, optStrFalsy, h]

/-- Closed form of `get_player_title`: the nested threshold comparison
produced by walking `reversed(TITLES)`. -/
theorem get_player_title_eq (p : Nat) :
    get_player_title p =
      if 10000 ≤ p then some "Champion"
      else if 5000 ≤ p then some "Legend"
      else if 2500 ≤ p then some "Pro"
      else if 500 ≤ p then some "Rookie"
      else if 100 ≤ p then some "Newbie"
      else none := by
  simp only [get_player_title, TITLES, List.find?, List.reverse, ge_iff_le]
  repeat' split <;>
    (try simp_all only [decide_eq_true_eq, decide_eq_false_iff_not, not_le,
      Option.map_some', Option.map_none', Option.some.injEq, not_true,
      not_false_iff]) <;>
    try first
      | rfl
      | omega

/-- Title resolution is monotone in the points total. -/
theorem get_player_title_monotone (p1 p2 : Nat) (hle : p2 ≤ p1) :
    titleRank (get_player_title p2) ≤ titleRank (get_player_title p1) := by
  rw [get_player_title_eq, get_player_title_eq]
  split_ifs <;> simp_all [titleRank] <;> omega

/-- Below the lowest threshold there is no title. -/
theorem get_player_title_below_lowest (p : Nat) (h : p < 100) :
    get_player_title p = none := by
  rw [get_player_title_eq]
  split_ifs <;> first | rfl | (exfalso; omega)

/-- When some threshold is met, the resolved title is the highest met one. -/
theorem get_player_title_highest_met (p : Nat) (pair : String × Nat)
    (hmem : pair ∈ TITLES) (hmet : pair.2 ≤ p) :
    ∃ best ∈ TITLES, get_player_title p = some best.1 ∧ best.2 ≤ p ∧
      ∀ q ∈ TITLES, q.2 ≤ p → q.2 ≤ best.2 := by
  rw [get_player_title_eq]
  have h100 : 100 ≤ p := by
    simp [TITLES] at hmem
    rcases hmem with h | h | h | h | h <;> rw [h] at hmet <;> omega
  split_ifs with h1 h2 h3 h4
  · exact ⟨("Champion", 10000), by simp [TITLES], rfl, h1, by
      intro q hq hqle; simp [TITLES] at hq
      rcases hq with h | h | h | h | h <;> rw [h] <;> omega⟩
  · exact ⟨("Legend", 5000), by simp [TITLES], rfl, h2, by
      intro q hq hqle; simp [TITLES] at hq
      rcases hq with h | h | h | h | h <;> rw [h] at hqle ⊢ <;> omega⟩
  · exact ⟨("Pro", 2500), by simp [TITLES], rfl, h3, by
      intro q hq hqle; simp [TITLES] at hq
      rcases hq with h | h | h | h | h <;> rw [h] at hqle ⊢ <;> omega⟩
  · exact ⟨("Rookie", 500), by simp [TITLES], rfl, h4, by
      intro q hq hqle; simp [TITLES] at hq
      rcases hq with h | h | h | h | h <;> rw [h] at hqle ⊢ <;> omega⟩
  · exact ⟨("Newbie", 100), by simp [TITLES], rfl, h100, by
      intro q hq hqle; simp [TITLES] at hq
      rcases hq with h | h | h | h | h <;> rw [h] at hqle ⊢ <;> omega⟩

/-- Claim C7 (confirmed): `get_player_title` is monotone in points (the
rank of the title for `p1 ≥ p2` is at least the rank for `p2`), it returns
the name of the highest threshold the points meet or exceed, and it
returns no title for points below the lowest threshold (100). -/
theorem C7_title_resolution (p1 p2 p : Nat) (hle : p2 ≤ p1) :
    titleRank (get_player_title p2) ≤ titleRank (get_player_title p1) ∧
    (p < 100 → get_player_title p = none) ∧
    (∀ pair ∈ TITLES, pair.2 ≤ p →
      ∃ best ∈ TITLES, get_player_title p = some best.1 ∧ best.2 ≤ p ∧
        ∀ q ∈ TITLES, q.2 ≤ p → q.2 ≤ best.2) :=
  ⟨get_player_title_monotone p1 p2 hle,
   get_player_title_below_lowest p,
   fun pair hmem hmet => get_player_title_highest_met p pair hmem hmet⟩

/-- Witness for C7 at `p1 = 600`, `p2 = 99`, `p = 2600`. -/
theorem C7_title_resolution_witness :
    (99 : Nat) ≤ 600 ∧
    (titleRank (get_player_title 99) ≤ titleRank (get_player_title 600) ∧
     ((2600 : Nat) < 100 → get_player_title 2600 = none) ∧
     (∀ pair ∈ TITLES, pair.2 ≤ 2600 →
       ∃ best ∈ TITLES, get_player_title 2600 = some best.1 ∧
         best.2 ≤ 2600 ∧ ∀ q ∈ TITLES, q.2 ≤ 2600 → q.2 ≤ best.2)) :=
  ⟨by decide, C7_title_resolution 600 99 2600 (by decide)⟩

/-- Witness for C10: any player with 1 session point is "THE ONE" while
the store is down, and a player with 0 points is not. -/
theorem C10_the_one_offline_unpopulated_witness :
    (cexEnv.db = none ∧ TopPlayerCache.username {} = none ∧
     TopPlayerCache.points {} = 0) ∧
    ((0 < 1 → (check_if_user_is_the_one cexEnv {} "Bob" 1).1 = true) ∧
     ((1 : Nat) = 0 → (check_if_user_is_the_one cexEnv {} "Bob" 1).1 = false)) ∧
    ((check_if_user_is_the_one cexEnv {} "Bob" 0).1 = false) := by
  refine ⟨⟨rfl, rfl, rfl⟩, ?_, ?_⟩
  · exact C10_the_one_offline_unpopulated cexEnv {} "Bob" 1 rfl rfl rfl
  · exact (C10_the_one_offline_unpopulated cexEnv {} "Bob" 0 rfl rfl rfl).2 rfl

/-- Forfeiting an active game only records a score: it touches neither
`game_ready` nor `target_token`. -/
theorem forfeit_game_fields (env : Env) (s : Session) :
    (forfeit_game_if_active env s).game_ready = s.game_ready ∧
    (forfeit_game_if_active env s).target_token = s.target_token := by
  unfold forfeit_game_if_active
  split_ifs
  · cases s.username <;> simp [save_score_async]
  · exact ⟨rfl, rfl⟩

/-- Clearing the game state restores the invariant unconditionally. -/
theorem game_inv_clear (s : Session) : game_inv (clear_game_state s) := by
  simp [game_inv, clear_game_state]

/-- `GET /` preserves the game-state invariant. -/
theorem game_inv_index (env : Env) (cache : TopPlayerCache) (s : Session)
    (h : game_inv s) : game_inv (index_page env cache s).2.1 := by
  unfold index_page fill_session_defaults
  have hc := game_inv_clear (forfeit_game_if_active env s)
  repeat' split <;> simp_all [game_inv]

/-- `POST /api/login` preserves the game-state invariant. -/
theorem game_inv_login (env : Env) (cache : TopPlayerCache) (s : Session)
    (payload : Option String) (h : game_inv s) :
    game_inv (handle_login env cache s payload).2.1 := by
  unfold handle_login
  repeat' split
  all_goals exact h

/-- `POST /api/difficulty` establishes the game-state invariant. -/
theorem game_inv_difficulty (env : Env) (s : Session) (d : String) :
    game_inv (set_difficulty_level env s d).2 := by
  unfold set_difficulty_level
  have hc := game_inv_clear (forfeit_game_if_active env s)
  repeat' split <;> simp_all [game_inv]

/-- `POST /api/start` establishes the game-state invariant. -/
theorem game_inv_start (env : Env) (s : Session) (target : Nat) :
    ∀ r ∈ start_game env s target, game_inv r.1 := by
  intro r hr
  unfold start_game at hr
  cases h : lookupDifficulty
      (clear_game_state (forfeit_game_if_active env s)).difficulty <;>
    simp [h] at hr
  subst hr
  simp [game_inv]

/-- `POST /api/guess` preserves the game-state invariant. -/
theorem game_inv_guess (env : Env) (cache : TopPlayerCache) (s : Session)
    (g : Option Int) (h : game_inv s) :
    game_inv (process_guess env cache s g).2.1 := by
  unfold process_guess
  rcases hgr : s.game_ready <;> rcases htok : s.target_token with _ | tok <;>
    simp only []
  · exact h
  · exact h
  · exact h
  · cases validateGuessRequest g
    · exact h
    · cases unsealToken env.key tok
      · exact h
      · cases lookupDifficulty s.difficulty
        · exact h
        · simp only []
          split_ifs <;>
            simp_all [game_inv, clear_game_state, save_score_async, htok]

/-- `GET /logout` establishes the game-state invariant. -/
theorem game_inv_logout (env : Env) (s : Session) :
    game_inv (handle_logout env s) := by
  simp [game_inv, handle_logout]

/-- Claim C3 (confirmed): each operation — index, login, set difficulty,
start, guess, logout — preserves the invariant that the session holds a
`target_token` exactly when `game_ready` is true: if the invariant holds
before the operation, it holds in the session the operation leaves
behind. -/
theorem C3_game_present_iff_playing (env : Env) (cache : TopPlayerCache)
    (s : Session) (guess : Option Int) (loginName : Option String)
    (d : String) (target : Nat) (h : game_inv s) :
    game_inv (index_page env cache s).2.1 ∧
    game_inv (handle_login env cache s loginName).2.1 ∧
    game_inv (set_difficulty_level env s d).2 ∧
    (∀ r ∈ start_game env s target, game_inv r.1) ∧
    game_inv (process_guess env cache s guess).2.1 ∧
    game_inv (handle_logout env s) :=
  ⟨game_inv_index env cache s h,
   game_inv_login env cache s loginName h,
   game_inv_difficulty env s d,
   game_inv_start env s target,
   game_inv_guess env cache s guess h,
   game_inv_logout env s⟩

/-- Counterexample to claim C1 as stated: in a playing session on easy
difficulty (`max_number = 10`), the out-of-range guess 11 does NOT return
status `warning` — it is processed as an ordinary wrong guess, returning
status `continue`, incrementing attempts-used from 0 to 1 and appending 11
to the guess history. -/
theorem C1_out_of_range_counterexample :
    cexPlaying.game_ready = true ∧ cexPlaying.attempts = 0 ∧
    (process_guess cexEnv {} cexPlaying (some 11)).1.statusField =
      some "continue" ∧
    (process_guess cexEnv {} cexPlaying (some 11)).1.statusField ≠
      some "warning" ∧
    (process_guess cexEnv {} cexPlaying (some 11)).2.1.attempts = 1 ∧
    (process_guess cexEnv {} cexPlaying (some 11)).2.1.guess_history =
      [11] := by
  refine ⟨rfl, rfl, by decide, by decide, by decide, by decide⟩

/-- Claim C1 (corrected): `routes.py` has no out-of-range warning.  A
guess below 1 (or a non-integer body) fails `GuessRequest` validation and
returns a 400 `status: error` response leaving the session unchanged,
while a guess above `max_number` is processed as an ordinary wrong guess:
it is appended to the history, increments attempts-used, and yields
`continue` (or `lose` at the attempt limit), never `warning`. -/
theorem C1_out_of_range_amended (env : Env) (cache : TopPlayerCache)
    (s : Session) (token : Token) (n : Nat) (settings : DifficultySetting)
    (g : Int)
    (hgr : s.game_ready = true) (htok : s.target_token = some token)
    (hun : unsealToken env.key token = some n)
    (hd : lookupDifficulty s.difficulty = some settings)
    (hnle : n ≤ settings.max_number)
    (hg1 : 1 ≤ g) (hgt : (settings.max_number : Int) < g) :
    (process_guess env cache s none = (.invalidNumber, s, cache)) ∧
    (∀ b : Int, b < 1 →
      process_guess env cache s (some b) = (.invalidNumber, s, cache)) ∧
    (process_guess env cache s (some g)).1.statusField ≠ some "warning" ∧
    (settings.max_attempts ≤ s.attempts + 1 →
      (process_guess env cache s (some g)).1 = .lose n) ∧
    (s.attempts + 1 < settings.max_attempts →
      (process_guess env cache s (some g)).1 =
        .cont "Lower" (settings.max_attempts - (s.attempts + 1))
          (s.guess_history ++ [g]) ∧
      (process_guess env cache s (some g)).2.1.attempts = s.attempts + 1 ∧
      (process_guess env cache s (some g)).2.1.guess_history =
        s.guess_history ++ [g]) := by
  have hne : ¬ (g = (n : Int)) := by omega
  have hlt : ¬ (g < (n : Int)) := by omega
  have hv : validateGuessRequest (some g) = some g := by
    simp [validateGuessRequest]; omega
  refine ⟨?_, ?_, ?_, ?_, ?_⟩
  · simp [process_guess, hgr, htok, validateGuessRequest]
  · intro b hb
    have hvb : validateGuessRequest (some b) = none := by
      simp [validateGuessRequest]; omega
    simp [process_guess, hgr, htok, hvb]
  · simp only [process_guess, hgr, htok, hv, hun, hd]
    split_ifs <;> simp [GuessResponse.statusField]
  · intro hatt
    simp only [process_guess, hgr, htok, hv, hun, hd]
    split_ifs <;> simp_all
  · intro hatt
    simp only [process_guess, hgr, htok, hv, hun, hd]
    have : ¬ (settings.max_attempts ≤ s.attempts + 1) := by omega
    split_ifs <;> simp_all [hlt]

/-- Witness for C1 (amended) at the concrete playing session and guess 50
on easy difficulty. -/
theorem C1_out_of_range_amended_witness :
    (cexPlaying.game_ready = true ∧
     cexPlaying.target_token = some (sealToken cexEnv.key 5) ∧
     unsealToken cexEnv.key (sealToken cexEnv.key 5) = some 5 ∧
     lookupDifficulty cexPlaying.difficulty = some ⟨10, 3, 3⟩ ∧
     (5 : Nat) ≤ 10 ∧ (1 : Int) ≤ 50 ∧ ((10 : Nat) : Int) < 50) ∧
    process_guess cexEnv {} cexPlaying none =
      (.invalidNumber, cexPlaying, {}) ∧
    (process_guess cexEnv {} cexPlaying (some 50)).1.statusField ≠
      some "warning" :=
  ⟨⟨rfl, rfl, rfl, rfl, by decide, by decide, by decide⟩,
   (C1_out_of_range_amended cexEnv {} cexPlaying (sealToken cexEnv.key 5)
      5 ⟨10, 3, 3⟩ 50 rfl rfl rfl rfl (by decide) (by decide)
      (by decide)).1,
   (C1_out_of_range_amended cexEnv {} cexPlaying (sealToken cexEnv.key 5)
      5 ⟨10, 3, 3⟩ 50 rfl rfl rfl rfl (by decide) (by decide)
      (by decide)).2.2.1⟩

/-- Counterexample to claim C2 as stated: in a playing session whose
target token is malformed, the guess returns the 400 Security Error body,
but the game is NOT invalidated — the session still has `game_ready =
true` and still holds the bad token, so it remains in the playing state
after the response. -/
theorem C2_invalid_token_counterexample :
    cexBadToken.game_ready = true ∧
    (process_guess cexEnv {} cexBadToken (some 3)).1 = .securityError ∧
    (process_guess cexEnv {} cexBadToken (some 3)).1.httpCode = 400 ∧
    (process_guess cexEnv {} cexBadToken (some 3)).2.1.game_ready = true ∧
    (process_guess cexEnv {} cexBadToken (some 3)).2.1.target_token =
      some (Token.garbage 0) := by
  refine ⟨rfl, by decide, by decide, by decide, by decide⟩

/-- Claim C2 (corrected): when the target token fails to decrypt, the
guess operation returns a 400 Security Error response, but the current
game is NOT invalidated: the session is returned unchanged, still in the
playing state with the undecryptable token, and no loss is recorded. -/
theorem C2_invalid_token_amended (env : Env) (cache : TopPlayerCache)
    (s : Session) (token : Token) (g : Int)
    (hgr : s.game_ready = true) (htok : s.target_token = some token)
    (hg1 : 1 ≤ g)
    (hun : unsealToken env.key token = none) :
    process_guess env cache s (some g) = (.securityError, s, cache) ∧
    GuessResponse.securityError.httpCode = 400 ∧
    (process_guess env cache s (some g)).2.1.game_ready = true := by
  have hv : validateGuessRequest (some g) = some g := by
    simp [validateGuessRequest]; omega
  refine ⟨?_, rfl, ?_⟩ <;> simp [process_guess, hgr, htok, hv, hun]

/-- Witness for C2 (amended) at the malformed-token session. -/
theorem C2_invalid_token_amended_witness :
    (cexBadToken.game_ready = true ∧
     cexBadToken.target_token = some (Token.garbage 0) ∧ (1 : Int) ≤ 3 ∧
     unsealToken cexEnv.key (Token.garbage 0) = none) ∧
    process_guess cexEnv {} cexBadToken (some 3) =
      (.securityError, cexBadToken, {}) :=
  ⟨⟨rfl, rfl, by decide, rfl⟩,
   (C2_invalid_token_amended cexEnv {} cexBadToken (Token.garbage 0) 3
      rfl rfl (by decide) rfl).1⟩

/-- Claim C4 (confirmed): guessing the sealed secret in a playing session
yields status `win` and adds exactly the difficulty's configured points
reward to the session's points (for every attempts-used value, including
the one that reaches `max_attempts`, since the win branch is tested before
the attempt limit); the game state is cleared on the win, so resubmitting
the same guess afterwards returns a 400 State Error and changes neither
the session nor its points. -/
theorem C4_win_awards_reward_once (env : Env) (cache : TopPlayerCache)
    (s : Session) (n : Nat) (settings : DifficultySetting)
    (hgr : s.game_ready = true)
    (htok : s.target_token = some (sealToken env.key n))
    (hd : lookupDifficulty s.difficulty = some settings)
    (hn : 1 ≤ n) :
    (process_guess env cache s (some (n : Int))).1.statusField =
      some "win" ∧
    (∃ t, (process_guess env cache s (some (n : Int))).1 =
      .win n (s.points + settings.points) t) ∧
    (process_guess env cache s (some (n : Int))).2.1.points =
      s.points + settings.points ∧
    (process_guess env cache s (some (n : Int))).2.1.game_ready = false ∧
    (process_guess env cache s (some (n : Int))).2.1.target_token = none ∧
    (∀ (env2 : Env) (cache2 : TopPlayerCache),
      process_guess env2 cache2
          (process_guess env cache s (some (n : Int))).2.1 (some (n : Int)) =
        (.stateError, (process_guess env cache s (some (n : Int))).2.1,
         cache2)) := by
  have hv : validateGuessRequest (some (n : Int)) = some (n : Int) := by
    simp [validateGuessRequest]; omega
  have hun : unsealToken env.key (sealToken env.key n) = some n := by
    simp [sealToken, unsealToken]
  simp only [process_guess, hgr, htok, hv, hun, hd]
  simp [save_score_async, clear_game_state, GuessResponse.statusField,
    process_guess]

/-- Witness for C4: winning with guess 5 on the concrete easy session (3
points reward), then resubmitting. -/
theorem C4_win_awards_reward_once_witness :
    (cexPlaying.game_ready = true ∧
     cexPlaying.target_token = some (sealToken cexEnv.key 5) ∧
     lookupDifficulty cexPlaying.difficulty = some ⟨10, 3, 3⟩ ∧
     (1 : Nat) ≤ 5) ∧
    (process_guess cexEnv {} cexPlaying (some 5)).1.statusField =
      some "win" ∧
    (process_guess cexEnv {} cexPlaying (some 5)).2.1.points = 0 + 3 ∧
    process_guess cexEnv {} (process_guess cexEnv {} cexPlaying
        (some 5)).2.1 (some 5) =
      (.stateError, (process_guess cexEnv {} cexPlaying (some 5)).2.1,
       {}) := by
  have h := C4_win_awards_reward_once cexEnv {} cexPlaying 5 ⟨10, 3, 3⟩
    rfl rfl rfl (by decide)
  exact ⟨⟨rfl, rfl, rfl, by decide⟩, h.1, h.2.2.1, h.2.2.2.2.2 cexEnv {}⟩

/-- Claim C6 (confirmed): an in-range wrong guess that brings
attempts-used to `max_attempts` yields status `lose` (never `continue`),
leaves the session's points unchanged (zero awarded), and returns the
session to the idle state (`game_ready` false, no target token). -/
theorem C6_attempt_limit_loses (env : Env) (cache : TopPlayerCache)
    (s : Session) (token : Token) (g : Int) (n : Nat)
    (settings : DifficultySetting)
    (hgr : s.game_ready = true) (htok : s.target_token = some token)
    (hun : unsealToken env.key token = some n)
    (hd : lookupDifficulty s.difficulty = some settings)
    (hg1 : 1 ≤ g) (hgmax : g ≤ (settings.max_number : Int))
    (hne : g ≠ (n : Int))
    (hatt : settings.max_attempts ≤ s.attempts + 1) :
    (process_guess env cache s (some g)).1 = .lose n ∧
    (process_guess env cache s (some g)).1.statusField = some "lose" ∧
    (process_guess env cache s (some g)).1.statusField ≠ some "continue" ∧
    (process_guess env cache s (some g)).2.1.points = s.points ∧
    (process_guess env cache s (some g)).2.1.game_ready = false ∧
    (process_guess env cache s (some g)).2.1.target_token = none := by
  have hv : validateGuessRequest (some g) = some g := by
    simp [validateGuessRequest]; omega
  simp only [process_guess, hgr, htok, hv, hun, hd]
  split_ifs <;>
    simp_all [save_score_async, clear_game_state, GuessResponse.statusField]

/-- Witness for C6: the third wrong in-range guess on easy difficulty
(max_attempts = 3) at two attempts already used. -/
theorem C6_attempt_limit_loses_witness :
    (Session.game_ready { cexPlaying with attempts := 2 } = true ∧
     Session.target_token { cexPlaying with attempts := 2 } =
       some (sealToken cexEnv.key 5) ∧
     unsealToken cexEnv.key (sealToken cexEnv.key 5) = some 5 ∧
     lookupDifficulty (Session.difficulty { cexPlaying with attempts := 2 }) =
       some ⟨10, 3, 3⟩ ∧
     (1 : Int) ≤ 7 ∧ (7 : Int) ≤ ((10 : Nat) : Int) ∧
     (7 : Int) ≠ ((5 : Nat) : Int) ∧
     (3 : Nat) ≤ Session.attempts { cexPlaying with attempts := 2 } + 1) ∧
    (process_guess cexEnv {} { cexPlaying with attempts := 2 }
        (some 7)).1 = .lose 5 ∧
    (process_guess cexEnv {} { cexPlaying with attempts := 2 }
        (some 7)).2.1.game_ready = false := by
  have h := C6_attempt_limit_loses cexEnv {} { cexPlaying with attempts := 2 }
    (sealToken cexEnv.key 5) 7 5 ⟨10, 3, 3⟩ rfl rfl rfl rfl (by decide)
    (by decide) (by decide) (by decide)
  exact ⟨⟨rfl, rfl, rfl, rfl, by decide, by decide, by decide, by decide⟩,
    h.1, h.2.2.2.2.1⟩

/-- Counterexample to claim C9 as stated: two leaderboard calls 2 seconds
apart (inside the 5-second TTL "of one another"), both finding a
non-empty cache, can disagree — the first call hits a snapshot written at
time 0 and read at time 4; the second call at time 6 finds that snapshot
expired, refetches from the store (whose data changed), and returns a
different body. -/
theorem C9_leaderboard_ttl_counterexample :
    cexLbEnv2.now - cexLbEnv1.now < CACHE_TIMEOUT_SECONDS ∧
    cexLbCache.data ≠ [] ∧
    (get_leaderboard_data cexLbEnv1 cexLbCache {}).2.1.data ≠ [] ∧
    (get_leaderboard_data cexLbEnv1 cexLbCache {}).1 =
      .ok [⟨"A", 5, none⟩] ∧
    (get_leaderboard_data cexLbEnv2
        (get_leaderboard_data cexLbEnv1 cexLbCache {}).2.1
        (get_leaderboard_data cexLbEnv1 cexLbCache {}).2.2).1 =
      .ok [⟨"B", 7, some "THE ONE"⟩] ∧
    (get_leaderboard_data cexLbEnv2
        (get_leaderboard_data cexLbEnv1 cexLbCache {}).2.1
        (get_leaderboard_data cexLbEnv1 cexLbCache {}).2.2).1 ≠
      (get_leaderboard_data cexLbEnv1 cexLbCache {}).1 := by
  refine ⟨by decide, by decide, by decide, by decide, by decide, by decide⟩

/-- Claim C9 (corrected): the freshness window is anchored at the cache's
`last_updated` write time, not at the first call.  When the cache holds a
non-empty snapshot and both calls fall within the TTL of that snapshot's
write time, both calls return exactly the cached snapshot — identical
output, no cache mutation — regardless of what either call's store
contains. -/
theorem C9_leaderboard_ttl_amended (env1 env2 : Env)
    (lb : LeaderboardCache) (top1 : TopPlayerCache)
    (hne : lb.data ≠ [])
    (h1 : env1.now - lb.last_updated < CACHE_TIMEOUT_SECONDS)
    (h2 : env2.now - lb.last_updated < CACHE_TIMEOUT_SECONDS) :
    get_leaderboard_data env1 lb top1 = (.ok lb.data, lb, top1) ∧
    (get_leaderboard_data env2 (get_leaderboard_data env1 lb top1).2.1
        (get_leaderboard_data env1 lb top1).2.2).1 =
      (get_leaderboard_data env1 lb top1).1 := by
  have hfirst : get_leaderboard_data env1 lb top1 = (.ok lb.data, lb, top1) := by
    unfold get_leaderboard_data
    rw [if_pos ⟨hne, h1⟩]
  refine ⟨hfirst, ?_⟩
  rw [hfirst]
  unfold get_leaderboard_data
  rw [if_pos ⟨hne, h2⟩]

/-- Witness for C9 (amended): two cache hits at times 1 and 4 against a
snapshot written at time 0, with different store contents. -/
theorem C9_leaderboard_ttl_amended_witness :
    (cexLbCache.data ≠ [] ∧
     Env.now { cexLbEnv1 with now := 1 } - cexLbCache.last_updated <
       CACHE_TIMEOUT_SECONDS ∧
     Env.now { cexLbEnv2 with now := 4 } - cexLbCache.last_updated <
       CACHE_TIMEOUT_SECONDS) ∧
    get_leaderboard_data { cexLbEnv1 with now := 1 } cexLbCache {} =
      (.ok cexLbCache.data, cexLbCache, {}) ∧
    (get_leaderboard_data { cexLbEnv2 with now := 4 }
        (get_leaderboard_data { cexLbEnv1 with now := 1 } cexLbCache {}).2.1
        (get_leaderboard_data { cexLbEnv1 with now := 1 } cexLbCache {}).2.2).1 =
      (get_leaderboard_data { cexLbEnv1 with now := 1 } cexLbCache {}).1 :=
  ⟨⟨by decide, by decide, by decide⟩,
   C9_leaderboard_ttl_amended { cexLbEnv1 with now := 1 }
     { cexLbEnv2 with now := 4 } cexLbCache {} (by decide) (by decide)
     (by decide)⟩

/-- Witness for C3 at a concrete playing session. -/
theorem C3_game_present_iff_playing_witness :
    game_inv cexPlaying ∧
    (game_inv (index_page cexEnv {} cexPlaying).2.1 ∧
     game_inv (handle_login cexEnv {} cexPlaying (some "Bob")).2.1 ∧
     game_inv (set_difficulty_level cexEnv cexPlaying "hard").2 ∧
     (∀ r ∈ start_game cexEnv cexPlaying 4, game_inv r.1) ∧
     game_inv (process_guess cexEnv {} cexPlaying (some 3)).2.1 ∧
     game_inv (handle_logout cexEnv cexPlaying)) :=
  ⟨by decide,
   C3_game_present_iff_playing cexEnv {} cexPlaying (some 3) (some "Bob")
     "hard" 4 (by decide)⟩

end GuessIt
